import Mathlib

set_option maxRecDepth 100000

/-!
Verification of the avalanche-bulletin generator
(`bulletin/ava_bulletin_signage_fr.py`, with the backfill driver
`scripts/backfill.py` as its caller).

The Python program is a straight-line script; this file gives a shallow
embedding of its pure core: the grouping-key normalizers, the danger-level
resolver, the subdivision-modifier lookup, the grouping/partitioning loop,
the elevation text/icon derivation, the compass-icon filename (including a
full MD5 implementation, since the filename is a truncated MD5 hex digest),
and the output-path decision of the main script.

Python values that can be `None`, a string, or an int are modelled by
`PyVal`; fallible code (AttributeError / IndexError / TypeError /
UnboundLocalError) is modelled with `Except String`.
-/

/-- A Python scalar as it occurs in the bulletin payload: a string, an int,
or `None`.  `dict.get(k)` on a missing key yields `None`, i.e. `pnone`. -/
inductive PyVal where
  | pstr (s : String)
  | pint (n : Int)
  | pnone
deriving DecidableEq, Repr

/-- A Python elevation dict.  The outer `Option` on each bound records
whether the key is present at all; the inner `Option Int` records whether
its value is `null`.  `extraKeys` counts keys other than the two bounds
(they matter only for the dict's truthiness in `if not elev:`). -/
structure ElevDict where
  lowerBound : Option (Option Int)
  upperBound : Option (Option Int)
  extraKeys : Nat
deriving DecidableEq, Repr

/-- Python truthiness of the elevation dict: non-empty iff some key exists. -/
def ElevDict.truthy (d : ElevDict) : Bool :=
  d.lowerBound.isSome || d.upperBound.isSome || decide (d.extraKeys ≠ 0)

/-- `elev.get('lowerBound')`: `None` both for an absent key and a null value. -/
def ElevDict.getLower (d : ElevDict) : Option Int := d.lowerBound.join

/-- `elev.get('upperBound')`: `None` both for an absent key and a null value. -/
def ElevDict.getUpper (d : ElevDict) : Option Int := d.upperBound.join

/-- The grouping key component for elevation: a tag plus the two bounds. -/
abbrev ElevKey : Type := String × Option Int × Option Int

/-- `_elev_key(elev)` from the source: `('all', None, None)` when `not elev`
(i.e. `None` or the empty dict), else `('range', get lower, get upper)`.
The argument is `Option ElevDict`: `none` is Python `None`. -/
def _elev_key (elev : Option ElevDict) : ElevKey :=
  match elev with
  | none => ("all", none, none)
  | some d =>
      if d.truthy then ("range", d.getLower, d.getUpper)
      else ("all", none, none)

/-- The full 8-direction list the source's `_aspects_key` compares against
(French-localised letters: SO, O, NO). -/
def full_aspects_fr : List String := ["N", "NE", "E", "SE", "S", "SO", "O", "NO"]

/-- The full 8-direction list in the upstream payload's (English) letters,
used by the rendering branch of the main loop. -/
def full_aspects_en : List String := ["N", "NE", "E", "SE", "S", "SW", "W", "NW"]

/-- `_aspects_key(aspects)` from the source:
`('all',)` when `aspects in (None, [], ['N','NE','E','SE','S','SO','O','NO'])`,
otherwise `tuple(aspects)` (input order preserved). -/
def _aspects_key (aspects : Option (List String)) : List String :=
  match aspects with
  | none => ["all"]
  | some l =>
      if l = [] ∨ l = full_aspects_fr then ["all"]
      else l

/-- Python `s.strip()`: drop leading and trailing whitespace characters. -/
def pyStrip (s : String) : String :=
  String.mk
    (((s.data.dropWhile Char.isWhitespace).reverse.dropWhile Char.isWhitespace).reverse)

/-- `_comment_key(c)`: `(c or '').strip()`. -/
def _comment_key (c : Option String) : String :=
  pyStrip (c.getD "")

/-- `is_pure_other(entries)`: every `(problemType, label)` pair has the
sentinel problem type. -/
def is_pure_other (entries : List (PyVal × PyVal)) : Bool :=
  entries.all (fun e => e.1 = PyVal.pstr "no_distinct_avalanche_problem")

/-- `warning_numbers.get(v, v)`: the fixed severity table, passing the value
through unchanged when it is not one of the five string keys. -/
def warning_numbers_get (v : PyVal) : PyVal :=
  match v with
  | .pstr "low" => .pint 1
  | .pstr "moderate" => .pint 2
  | .pstr "considerable" => .pint 3
  | .pstr "high" => .pint 4
  | .pstr "very high" => .pint 5
  | _ => v

/-- The severity rank of a label: the table value when the label is one of
the five table keys (on which `warning_numbers.get` yields an int). -/
def rank_of (s : String) : Option Int :=
  match warning_numbers_get (.pstr s) with
  | .pint n => some n
  | _ => none

/-- `subdiv_dict.get(v, v)`: the four-entry modifier table with fall-through. -/
def subdiv_dict_get (v : PyVal) : PyVal :=
  match v with
  | .pstr "neutral" => .pstr "="
  | .pstr "minus" => .pstr "-"
  | .pstr "plus" => .pstr "+"
  | .pstr "equal" => .pstr "="
  | _ => v

/-- `snow_type.get(pt, pt)`: problem-type label translation with fall-through. -/
def snow_type_get (v : PyVal) : PyVal :=
  match v with
  | .pstr "new_snow" => .pstr "Neige fraîche"
  | .pstr "wind_slab" => .pstr "Neige soufflée"
  | .pstr "gliding_snow" => .pstr "Avalanches de glissement"
  | .pstr "wet_snow" => .pstr "Neige mouillée"
  | .pstr "persistent_weak_layers" => .pstr "Neige ancienne"
  | _ => v

/-- The nested `customData["CH"]` dict: `.get("subdivision")`. -/
structure CHData where
  subdivision : PyVal
deriving DecidableEq, Repr

/-- The `customData` dict of a rating; `CH = none` models a missing or null
`"CH"` entry (on which `.get` raises AttributeError). -/
structure CustomData where
  CH : Option CHData
deriving DecidableEq, Repr

/-- One entry of `dangerRatings`.  `mainValue` is the value of
`dr.get("mainValue")` (so a missing key is `pnone`); `customData = none`
models a missing or null `"customData"` entry. -/
structure DangerRating where
  mainValue : PyVal
  customData : Option CustomData
deriving DecidableEq, Repr

/-- One entry of `avalancheProblems`.  `elevation` is the value of
`ap.get("elevation", {})` (a missing key yields the empty dict, a null value
yields `none`; both are falsy and behave identically downstream). -/
structure AvalancheProblem where
  elevation : Option ElevDict
  aspects : Option (List String)
  comment : Option String
  problemType : PyVal
deriving DecidableEq, Repr

/-- The region record the script works on. -/
structure RegionInfo where
  dangerRatings : List DangerRating
  avalancheProblems : List AvalancheProblem
deriving DecidableEq, Repr

/-- Python `>` as used in `highest_warning`: defined for int/int and
str/str, a `TypeError` otherwise (in particular whenever `None` is involved). -/
def pyGT : PyVal → PyVal → Except String Bool
  | .pint a, .pint b => .ok (decide (b < a))
  | .pstr a, .pstr b => .ok (decide (b < a))
  | _, _ => .error "TypeError"

/-- One iteration of the `highest_warning` loop.  The state is the local
variable `mainValue`: `none` while it is still unassigned (the
`'mainValue' in locals()` test).  `old_warning` is 0 unless `mainValue`
is assigned and not `None`. -/
def hw_step (state : Option PyVal) (mv : PyVal) : Except String (Option PyVal) :=
  let old_warning : PyVal :=
    match state with
    | some v => if v = .pnone then .pint 0 else warning_numbers_get v
    | none => .pint 0
  let new_warning := warning_numbers_get mv
  match pyGT new_warning old_warning with
  | .error e => .error e
  | .ok b => .ok (some (if b then new_warning else old_warning))

/-- The `highest_warning` loop over the `mainValue`s of the rating list. -/
def hw_go : List PyVal → Option PyVal → Except String (Option PyVal)
  | [], st => .ok st
  | mv :: rest, st =>
      match hw_step st mv with
      | .error e => .error e
      | .ok st' => hw_go rest st'

/-- `highest_warning(region_info)` from the source.  Returning the loop
variable when `dangerRatings` is empty reads an unassigned local
(UnboundLocalError). -/
def highest_warning (region_info : RegionInfo) : Except String PyVal :=
  match hw_go (region_info.dangerRatings.map (·.mainValue)) none with
  | .error e => .error e
  | .ok none => .error "UnboundLocalError"
  | .ok (some v) => .ok v

/-- `warning_subdivision(region_info)` from the source: takes the FIRST
rating (`[0]`, IndexError on empty), then `customData.get("CH")` and
`ch.get("subdivision")` — each of which raises AttributeError when the
previous `.get` returned `None` — maps through `subdiv_dict`, and turns a
`None` result into the empty string. -/
def warning_subdivision (region_info : RegionInfo) : Except String PyVal :=
  match region_info.dangerRatings with
  | [] => .error "IndexError"
  | dr :: _ =>
      match dr.customData with
      | none => .error "AttributeError"
      | some cd =>
          match cd.CH with
          | none => .error "AttributeError"
          | some ch =>
              let sub := ch.subdivision
              let sub_sign := subdiv_dict_get sub
              .ok (if sub_sign = .pnone then .pstr "" else sub_sign)

/-- The elevation text / mountain-icon derivation from the main grouping
loop (the `if elev:` block): mirrors the source's if/elif/else chain,
including the conditional expression in the final else branch. -/
def elev_render (elev : Option ElevDict) : String × String :=
  match elev with
  | some d =>
      if d.truthy then
        let lower := d.getLower
        let upper := d.getUpper
        if lower = none ∧ upper ≠ none then
          ("en dessous de " ++ toString (upper.getD 0) ++ "m", "below_mountain.png")
        else if upper = none ∧ lower ≠ none then
          ("à plus de " ++ toString (lower.getD 0) ++ "m", "above_mountain.png")
        else
          ((if lower ≠ none ∧ upper ≠ none then
              toString (lower.getD 0) ++ "-" ++ toString (upper.getD 0) ++ "m"
            else "toutes les altitudes"),
           "all_mountain.png")
      else ("toutes les altitudes", "all_mountain.png")
  | none => ("toutes les altitudes", "all_mountain.png")

/-- The specification's own elevation rule, stated by its four cases:
lower null & upper known → "below {upper}" with the below icon;
upper null & lower known → "above {lower}" with the above icon;
both known → "{lower}-{upper}"; both null or elevation absent →
"all elevations" with the all icon.  (Written from the spec's words, to be
compared with `elev_render`.) -/
def elev_render_spec (elev : Option ElevDict) : String × String :=
  match elev with
  | some d =>
      if d.truthy then
        match d.getLower, d.getUpper with
        | none, some u => ("en dessous de " ++ toString u ++ "m", "below_mountain.png")
        | some l, none => ("à plus de " ++ toString l ++ "m", "above_mountain.png")
        | some l, some u => (toString l ++ "-" ++ toString u ++ "m", "all_mountain.png")
        | none, none => ("toutes les altitudes", "all_mountain.png")
      else ("toutes les altitudes", "all_mountain.png")
  | none => ("toutes les altitudes", "all_mountain.png")

/-- The full grouping key `(elev, aspects, comment)`. -/
abbrev GroupKey : Type := ElevKey × List String × String

/-- The grouping key of one `avalancheProblems` record. -/
def group_key (ap : AvalancheProblem) : GroupKey :=
  (_elev_key ap.elevation, _aspects_key ap.aspects, _comment_key ap.comment)

/-- One group of the `OrderedDict`: its key, the first record that created
it (from which the card texts and icons are memoised), and the collected
`(problemType, translated label)` entries in record order. -/
structure ProblemGroup where
  key : GroupKey
  firstRecord : AvalancheProblem
  problem_entries : List (PyVal × PyVal)
deriving DecidableEq, Repr

/-- One iteration of the grouping loop: append the `(problemType, label)`
pair to the record's group, creating the group at the end (insertion order)
when its key is new — the `OrderedDict` behaviour of the source. -/
def add_record (groups : List ProblemGroup) (ap : AvalancheProblem) : List ProblemGroup :=
  let k := group_key ap
  let entry := (ap.problemType, snow_type_get ap.problemType)
  if groups.any (fun g => g.key = k) then
    groups.map (fun g =>
      if g.key = k then { g with problem_entries := g.problem_entries ++ [entry] }
      else g)
  else
    groups ++ [{ key := k, firstRecord := ap, problem_entries := [entry] }]

/-- The grouping loop over all `avalancheProblems` records. -/
def build_groups (aps : List AvalancheProblem) : List ProblemGroup :=
  aps.foldl add_record []

/-- The classification loop: each group goes to `other_groups` when
`is_pure_other` holds of its entries, to `normal_groups` otherwise,
in group order. -/
def split_groups (groups : List ProblemGroup) : List ProblemGroup × List ProblemGroup :=
  groups.foldl
    (fun acc g =>
      if is_pure_other g.problem_entries then (acc.1, acc.2 ++ [g])
      else (acc.1 ++ [g], acc.2))
    ([], [])

/-- The order in which group cards are rendered: all normal groups, then
all pure-other groups. -/
def rendered_groups (aps : List AvalancheProblem) : List ProblemGroup :=
  (split_groups (build_groups aps)).1 ++ (split_groups (build_groups aps)).2

/-- The configured region id. -/
def REGION_ID : String := "CH-4211"

/-- One feature of the fetched geojson payload: the `regionID` values of
its `properties.regions` list (`r.get("regionID")`, so `none` for a
missing key), plus the region record carried by `properties`. -/
structure Feature where
  regionIDs : List (Option String)
  properties : RegionInfo
deriving DecidableEq, Repr

/-- The region-search loop of the main script: the `properties` of the
first feature whose `regions` list contains the configured region id
(the nested loop with its two `break`s). -/
def find_region (features : List Feature) : Option RegionInfo :=
  match features.find? (fun f => f.regionIDs.any (fun rid => rid = some REGION_ID)) with
  | none => none
  | some f => some f.properties

/-- The path the script writes to: `BASE / "signage_bulletin_fr.html"`,
where `BASE` is the directory containing the script.  The parsed `--out`
argument is not consulted anywhere in the write step. -/
def out_path (base : String) : String := base ++ "/signage_bulletin_fr.html"

/-- The output decision of the main script: when the configured region is
absent it prints a message and writes nothing (`none`); otherwise it writes
exactly one HTML file, at `out_path base`.  `args_out` is the parsed
`--out` value (default `"bulletin/output/bulletin.html"`); the returned
path never depends on it. -/
def pipeline_written_path (features : List Feature) (args_out : String)
    (base : String) : Option String :=
  match find_region features with
  | none => none
  | some _ =>
      let _ := args_out
      some (out_path base)

namespace MD5

/-- Reduce modulo 2^32. -/
def w32 (n : Nat) : Nat := n % 4294967296

/-- 32-bit addition. -/
def add32 (a b : Nat) : Nat := (a + b) % 4294967296

/-- 32-bit complement. -/
def not32 (a : Nat) : Nat := Nat.xor 4294967295 (a % 4294967296)

/-- 32-bit left rotation. -/
def rotl (x s : Nat) : Nat :=
  w32 ((x <<< s) ||| (x >>> (32 - s)))

/-- Per-round shift amounts. -/
def s_table : List Nat :=
  [7, 12, 17, 22, 7, 12, 17, 22, 7, 12, 17, 22, 7, 12, 17, 22,
   5, 9, 14, 20, 5, 9, 14, 20, 5, 9, 14, 20, 5, 9, 14, 20,
   4, 11, 16, 23, 4, 11, 16, 23, 4, 11, 16, 23, 4, 11, 16, 23,
   6, 10, 15, 21, 6, 10, 15, 21, 6, 10, 15, 21, 6, 10, 15, 21]

/-- Per-round additive constants (floor(2^32 * abs(sin(i+1)))). -/
def k_table : List Nat :=
  [0xd76aa478, 0xe8c7b756, 0x242070db, 0xc1bdceee,
   0xf57c0faf, 0x4787c62a, 0xa8304613, 0xfd469501,
   0x698098d8, 0x8b44f7af, 0xffff5bb1, 0x895cd7be,
   0x6b901122, 0xfd987193, 0xa679438e, 0x49b40821,
   0xf61e2562, 0xc040b340, 0x265e5a51, 0xe9b6c7aa,
   0xd62f105d, 0x02441453, 0xd8a1e681, 0xe7d3fbc8,
   0x21e1cde6, 0xc33707d6, 0xf4d50d87, 0x455a14ed,
   0xa9e3e905, 0xfcefa3f8, 0x676f02d9, 0x8d2a4c8a,
   0xfffa3942, 0x8771f681, 0x6d9d6122, 0xfde5380c,
   0xa4beea44, 0x4bdecfa9, 0xf6bb4b60, 0xbebfbc70,
   0x289b7ec6, 0xeaa127fa, 0xd4ef3085, 0x04881d05,
   0xd9d4d039, 0xe6db99e5, 0x1fa27cf8, 0xc4ac5665,
   0xf4292244, 0x432aff97, 0xab9423a7, 0xfc93a039,
   0x655b59c3, 0x8f0ccc92, 0xffeff47d, 0x85845dd1,
   0x6fa87e4f, 0xfe2ce6e0, 0xa3014314, 0x4e0811a1,
   0xf7537e82, 0xbd3af235, 0x2ad7d2bb, 0xeb86d391]

/-- `k` little-endian bytes of `n`. -/
def leBytes : Nat → Nat → List Nat
  | 0, _ => []
  | k + 1, n => (n % 256) :: leBytes k (n / 256)

/-- MD5 padding: a 0x80 byte, zeros to 56 mod 64, then the 64-bit
little-endian bit length. -/
def pad (msg : List Nat) : List Nat :=
  let len := msg.length
  let z := (119 - len % 64) % 64
  msg ++ [0x80] ++ List.replicate z 0 ++ leBytes 8 ((len * 8) % 18446744073709551616)

/-- Split a list into chunks of 64 (structural recursion on a fuel bound,
so that the definition reduces; `fuel = l.length` always suffices). -/
def chunksGo : Nat → List Nat → List (List Nat)
  | 0, _ => []
  | fuel + 1, l => if l = [] then [] else l.take 64 :: chunksGo fuel (l.drop 64)

/-- Split a list into chunks of 64. -/
def chunks64 (l : List Nat) : List (List Nat) := chunksGo l.length l

/-- The 16 little-endian 32-bit words of one 64-byte block. -/
def toWords (block : List Nat) : List Nat :=
  (List.range 16).map fun i =>
    block.getD (4 * i) 0 + 256 * block.getD (4 * i + 1) 0 +
      65536 * block.getD (4 * i + 2) 0 + 16777216 * block.getD (4 * i + 3) 0

/-- One of the 64 MD5 rounds. -/
def round (m : List Nat) (st : Nat × Nat × Nat × Nat) (i : Nat) :
    Nat × Nat × Nat × Nat :=
  let (a, b, c, d) := st
  let fg : Nat × Nat :=
    if i < 16 then ((b &&& c) ||| (not32 b &&& d), i)
    else if i < 32 then ((d &&& b) ||| (not32 d &&& c), (5 * i + 1) % 16)
    else if i < 48 then (Nat.xor (Nat.xor b c) d, (3 * i + 5) % 16)
    else (Nat.xor c (b ||| not32 d), (7 * i) % 16)
  let f := w32 (fg.1 + a + k_table.getD i 0 + m.getD fg.2 0)
  (d, add32 b (rotl f (s_table.getD i 0)), b, c)

/-- Process one 64-byte block. -/
def processBlock (st : Nat × Nat × Nat × Nat) (block : List Nat) :
    Nat × Nat × Nat × Nat :=
  let m := toWords block
  let (a, b, c, d) := (List.range 64).foldl (round m) st
  (add32 st.1 a, add32 st.2.1 b, add32 st.2.2.1 c, add32 st.2.2.2 d)

/-- The 16 digest bytes of a message given as a byte list. -/
def digestBytes (msg : List Nat) : List Nat :=
  let st := (chunks64 (pad msg)).foldl processBlock
    (0x67452301, 0xefcdab89, 0x98badcfe, 0x10325476)
  leBytes 4 st.1 ++ leBytes 4 st.2.1 ++ leBytes 4 st.2.2.1 ++ leBytes 4 st.2.2.2

/-- A hex digit character for a nibble. -/
def hexChar (n : Nat) : Char :=
  match n with
  | 0 => '0' | 1 => '1' | 2 => '2' | 3 => '3' | 4 => '4'
  | 5 => '5' | 6 => '6' | 7 => '7' | 8 => '8' | 9 => '9'
  | 10 => 'a' | 11 => 'b' | 12 => 'c' | 13 => 'd' | 14 => 'e'
  | _ => 'f'

/-- The two hex characters of one byte. -/
def byteHex (b : Nat) : List Char := [hexChar (b / 16), hexChar (b % 16)]

/-- `hashlib.md5(key.encode()).hexdigest()` for an ASCII string. -/
def hexdigest (s : String) : String :=
  String.mk ((digestBytes (s.data.map Char.toNat)).flatMap byteHex)

end MD5

/-- Python string comparison (`<=`) on code-point lists: lexicographic. -/
def strLeB : List Char → List Char → Bool
  | [], _ => true
  | _ :: _, [] => false
  | a :: as, b :: bs =>
      if a.toNat < b.toNat then true
      else if b.toNat < a.toNat then false
      else strLeB as bs

/-- Python `<=` on strings. -/
def pyLe (a b : String) : Bool := strLeB a.data b.data

/-- The Python `<=` order on strings, as a proposition. -/
def pyLeP : String → String → Prop := fun a b => pyLe a b = true

instance : DecidableRel pyLeP :=
  fun a b => inferInstanceAs (Decidable (pyLe a b = true))

/-- Python `e.upper()` for the ASCII direction strings. -/
def strUpper (s : String) : String := String.mk (s.data.map Char.toUpper)

/-- The first ten hex-digest characters (`hexdigest()[:10]`). -/
def hexdigest10 (s : String) : String :=
  String.mk (((MD5.digestBytes (s.data.map Char.toNat)).flatMap MD5.byteHex).take 10)

/-- `sorted(e.upper() for e in expos)`: Python sorts by code-point order;
any sorting algorithm yields the same list, since sorted permutations of a
multiset are unique for a total antisymmetric order. -/
def sortedUpper (expos : List String) : List String :=
  (expos.map strUpper).insertionSort pyLeP

/-- `filename_for_expos(expos)` from the source, with its default
arguments filled in: `"compass_fr_" + md5(",".join(sorted(e.upper() for e
in expos))).hexdigest()[:10] + ".svg"`. -/
def filename_for_expos (expos : List String) : String :=
  "compass_fr_" ++ hexdigest10 (String.intercalate "," (sortedUpper expos)) ++ ".svg"


/-- The empty Python elevation dict `{}`. -/
def emptyElevDict : ElevDict := ⟨none, none, 0⟩

/-- An elevation dict whose two bound keys are present with null values:
`{'lowerBound': None, 'upperBound': None}`. -/
def nullBoundsDict : ElevDict := ⟨some none, some none, 0⟩

/-- A payload feature whose regions contain the configured region id. -/
def demo_feature : Feature := ⟨[some "CH-4211"], ⟨[], []⟩⟩

/-- The four-entry subdivision table as a partial map (spec form). -/
def subdiv_table (s : String) : Option String :=
  match s with
  | "neutral" => some "="
  | "equal" => some "="
  | "minus" => some "-"
  | "plus" => some "+"
  | _ => none

/-- First-seen deduplication of a key sequence (the `OrderedDict` key
order, stated from the spec's words "first-seen order"). -/
def first_seen_keys (ks : List GroupKey) : List GroupKey :=
  ks.foldl (fun acc k => if k ∈ acc then acc else acc ++ [k]) []

/-- A concrete record list: two identical wind-slab records (same key)
around one sentinel-only record. -/
def demo_aps : List AvalancheProblem :=
  [⟨some ⟨some (some 2200), none, 0⟩, some ["N", "NE"], some "c1", .pstr "wind_slab"⟩,
   ⟨none, none, none, .pstr "no_distinct_avalanche_problem"⟩,
   ⟨some ⟨some (some 2200), none, 0⟩, some ["N", "NE"], some "c1", .pstr "wind_slab"⟩]

/-- A hex-digit character: 0-9 or a-f. -/
def isHexDigitCh (c : Char) : Bool :=
  decide (('0' ≤ c ∧ c ≤ '9') ∨ ('a' ≤ c ∧ c ≤ 'f'))

/-! ## Theorems -/

/-- C7: `_elev_key` is total (it is a Lean function), and a null elevation
normalizes identically to an empty elevation dict, both to
`('all', None, None)`; hence `GroupKey` equality cannot distinguish
missing from empty elevation. -/
theorem C7_elev_key_null_eq_empty :
    _elev_key none = ("all", none, none) ∧
    _elev_key (some emptyElevDict) = ("all", none, none) ∧
    _elev_key none = _elev_key (some emptyElevDict) :=
  ⟨rfl, rfl, rfl⟩

/-- C10: a non-empty elevation dict with both bounds null gets grouping key
`('range', None, None)`, distinct from the `('all', None, None)` key of an
absent or empty elevation, yet renders the same "all elevations" text and
all-mountain icon. -/
theorem C10_null_bounds_dict_separate_group (d : ElevDict)
    (ht : d.truthy = true) (hl : d.getLower = none) (hu : d.getUpper = none) :
    _elev_key (some d) = ("range", none, none) ∧
    _elev_key (some d) ≠ _elev_key none ∧
    _elev_key (some d) ≠ _elev_key (some emptyElevDict) ∧
    elev_render (some d) = ("toutes les altitudes", "all_mountain.png") ∧
    elev_render none = ("toutes les altitudes", "all_mountain.png") := by
  have h1 : _elev_key (some d) = ("range", none, none) := by
    simp [_elev_key, ht, hl, hu]
  refine ⟨h1, ?_, ?_, ?_, rfl⟩
  · rw [h1]; decide
  · rw [h1]; decide
  · simp [elev_render, ht, hl, hu]

/-- Witness for C10 at the concrete dict
`{'lowerBound': None, 'upperBound': None}`. -/
theorem C10_witness :
    _elev_key (some nullBoundsDict) = ("range", none, none) ∧
    _elev_key (some nullBoundsDict) ≠ _elev_key none ∧
    _elev_key (some nullBoundsDict) ≠ _elev_key (some emptyElevDict) ∧
    elev_render (some nullBoundsDict) = ("toutes les altitudes", "all_mountain.png") ∧
    elev_render none = ("toutes les altitudes", "all_mountain.png") :=
  C10_null_bounds_dict_separate_group nullBoundsDict (by decide) (by decide) (by decide)

/-- C8: the elevation text and mountain icon computed by the grouping loop
agree, on every elevation input, with the specification's four-case rule
(below / above / range / all elevations). -/
theorem C8_elev_render_meets_spec (elev : Option ElevDict) :
    elev_render elev = elev_render_spec elev := by
  match elev with
  | none => rfl
  | some d =>
    unfold elev_render elev_render_spec
    by_cases ht : d.truthy <;>
      rcases hl : d.getLower with _ | l <;> rcases hu : d.getUpper with _ | u <;>
        simp [ht, hl, hu]

/-- C6: `warning_subdivision` depends only on the first rating entry —
its result is unchanged under arbitrary replacement of the tail of
`dangerRatings` (and of the unrelated `avalancheProblems`). -/
theorem C6_subdivision_first_entry_only (dr : DangerRating)
    (t1 t2 : List DangerRating) (ap1 ap2 : List AvalancheProblem) :
    warning_subdivision ⟨dr :: t1, ap1⟩ = warning_subdivision ⟨dr :: t2, ap2⟩ := rfl

/-- C2 counterexample: the full 8-direction set in the upstream payload's
(English) letters N,NE,E,SE,S,SW,W,NW is NOT collapsed to the sentinel —
the source compares against the French list N,NE,E,SE,S,SO,O,NO. -/
theorem C2_counterexample :
    _aspects_key (some full_aspects_en) ≠ ["all"] := by decide

/-- C2 (amended): `_aspects_key` returns the sentinel `('all',)` for a null
or empty aspect list and for the French-localised full 8-direction list
N,NE,E,SE,S,SO,O,NO; every other list is returned as-is, in input order. -/
theorem C2_aspects_key_amended (a : Option (List String)) :
    ((a = none ∨ a = some [] ∨ a = some full_aspects_fr) → _aspects_key a = ["all"]) ∧
    (∀ l, a = some l → l ≠ [] → l ≠ full_aspects_fr → _aspects_key a = l) := by
  constructor
  · rintro (rfl | rfl | rfl) <;> rfl
  · rintro l rfl h1 h2
    simp [_aspects_key, h1, h2]

/-- Witness for C2 at concrete inputs: a two-element list is preserved in
its given (non-sorted) order, and the French full list is collapsed. -/
theorem C2_witness :
    _aspects_key (some ["NE", "N"]) = ["NE", "N"] ∧
    _aspects_key (some full_aspects_fr) = ["all"] :=
  ⟨(C2_aspects_key_amended (some ["NE", "N"])).2 ["NE", "N"] rfl
      (by decide) (by decide),
   (C2_aspects_key_amended (some full_aspects_fr)).1 (Or.inr (Or.inr rfl))⟩

/-- C1: the script parses `--out` but never uses it — with the region
present it writes the single HTML file at the fixed script-relative path
`BASE/signage_bulletin_fr.html`, not at the `--out` path (demonstrated at
the default `--out` value); with the region absent it writes nothing.
The written path is independent of the `--out` argument altogether. -/
theorem C1_out_argument_ignored :
    pipeline_written_path [demo_feature] "bulletin/output/bulletin.html" "/repo/bulletin"
      = some "/repo/bulletin/signage_bulletin_fr.html" ∧
    pipeline_written_path [demo_feature] "bulletin/output/bulletin.html" "/repo/bulletin"
      ≠ some "bulletin/output/bulletin.html" ∧
    pipeline_written_path [] "bulletin/output/bulletin.html" "/repo/bulletin" = none ∧
    ∀ (feats : List Feature) (o1 o2 base : String),
      pipeline_written_path feats o1 base = pipeline_written_path feats o2 base := by
  refine ⟨by decide, by decide, rfl, ?_⟩
  intro feats o1 o2 base
  unfold pipeline_written_path
  cases find_region feats <;> rfl

/-- C4 counterexample: with the first rating's `customData` missing, the
claim says `warning_subdivision` returns `""` without raising; the code
raises AttributeError (`None.get("CH")`). -/
theorem C4_counterexample :
    warning_subdivision ⟨[⟨PyVal.pstr "low", none⟩], []⟩ = .error "AttributeError" ∧
    warning_subdivision ⟨[⟨PyVal.pstr "low", none⟩], []⟩ ≠ .ok (.pstr "") :=
  ⟨rfl, fun h => Except.noConfusion h⟩

/-- C4 (amended): for a non-empty ratings list, `warning_subdivision`
returns the empty string without error only when `customData` and its
`CH` entry are present and the `subdivision` key is the one missing; a
missing `customData` or missing `CH` raises AttributeError; a present
modifier is mapped through the 4-entry table
neutral↦"=", equal↦"=", minus↦"-", plus↦"+". -/
theorem C4_subdivision_amended (ri : RegionInfo) (dr : DangerRating)
    (t : List DangerRating) (hr : ri.dangerRatings = dr :: t) :
    (dr.customData = none → warning_subdivision ri = .error "AttributeError") ∧
    (∀ cd, dr.customData = some cd → cd.CH = none →
      warning_subdivision ri = .error "AttributeError") ∧
    (∀ cd ch, dr.customData = some cd → cd.CH = some ch → ch.subdivision = .pnone →
      warning_subdivision ri = .ok (.pstr "")) ∧
    (∀ cd ch s sign, dr.customData = some cd → cd.CH = some ch →
      ch.subdivision = .pstr s → subdiv_table s = some sign →
      warning_subdivision ri = .ok (.pstr sign)) := by
  obtain ⟨drs, aps⟩ := ri
  cases hr
  refine ⟨?_, ?_, ?_, ?_⟩
  · intro h; simp [warning_subdivision, h]
  · intro cd h1 h2; simp [warning_subdivision, h1, h2]
  · intro cd ch h1 h2 h3; simp [warning_subdivision, h1, h2, h3, subdiv_dict_get]
  · intro cd ch s sign h1 h2 h3 h4
    simp only [warning_subdivision, h1, h2, h3]
    unfold subdiv_table at h4
    split at h4 <;> simp_all [subdiv_dict_get]

/-- Witness for C4: a present "plus" modifier maps to "+", at a concrete
single-entry ratings list. -/
theorem C4_witness :
    warning_subdivision ⟨[⟨PyVal.pnone, some ⟨some ⟨PyVal.pstr "plus"⟩⟩⟩], []⟩
      = .ok (.pstr "+") :=
  (C4_subdivision_amended ⟨[⟨PyVal.pnone, some ⟨some ⟨PyVal.pstr "plus"⟩⟩⟩], []⟩
      ⟨PyVal.pnone, some ⟨some ⟨PyVal.pstr "plus"⟩⟩⟩ [] rfl).2.2.2
    ⟨some ⟨PyVal.pstr "plus"⟩⟩ ⟨PyVal.pstr "plus"⟩ "plus" "+" rfl rfl rfl rfl

/-- `warning_numbers.get` on an int falls through unchanged. -/
theorem warning_numbers_get_pint (n : Int) :
    warning_numbers_get (.pint n) = .pint n := rfl

/-- A ranked label is mapped by `warning_numbers.get` to its rank. -/
theorem warning_numbers_get_of_rank {s : String} {r : Int}
    (h : rank_of s = some r) : warning_numbers_get (.pstr s) = .pint r := by
  unfold rank_of at h
  cases hw : warning_numbers_get (.pstr s) with
  | pint n => rw [hw] at h; injection h with h; rw [h]
  | pstr t => rw [hw] at h; cases h
  | pnone => rw [hw] at h; cases h

/-- Every table rank is positive. -/
theorem rank_of_pos {s : String} {r : Int} (h : rank_of s = some r) : 0 < r := by
  have h2 := warning_numbers_get_of_rank h
  unfold warning_numbers_get at h2
  split at h2 <;> first
    | (injection h2 with h2; omega)
    | (cases h2)

/-- Invariant of the `highest_warning` loop on ranked labels: starting from
an int state, the loop folds `max` over the ranks. -/
theorem hw_go_pint (labels : List String) :
    ∀ m : Int, (∀ s ∈ labels, (rank_of s).isSome) →
    hw_go (labels.map PyVal.pstr) (some (.pint m)) =
      .ok (some (.pint (labels.foldl (fun acc s => max acc ((rank_of s).getD 0)) m))) := by
  induction labels with
  | nil => intro m _; rfl
  | cons s rest ih =>
    intro m hall
    obtain ⟨r, hr⟩ := Option.isSome_iff_exists.mp (hall s (by simp))
    have hw := warning_numbers_get_of_rank hr
    have hstep : hw_step (some (.pint m)) (.pstr s) = .ok (some (.pint (max m r))) := by
      unfold hw_step
      simp only [hw, warning_numbers_get_pint]
      have hne : (PyVal.pint m = PyVal.pnone) = False := by simp
      simp only [hne, if_false, pyGT]
      by_cases h : m < r
      · simp [h, max_eq_right h.le]
      · simp [h, max_eq_left (not_lt.mp h)]
    simp only [List.map_cons, hw_go, hstep]
    rw [ih (max m r) (fun t ht => hall t (by simp [ht]))]
    simp [List.foldl_cons, hr]

/-- C3: on a non-empty rating list whose `mainValue` labels are all in the
five-entry severity table, `highest_warning` returns the maximum rank
(the fold of `max` over the ranks, from 0). -/
theorem C3_highest_warning_max (ri : RegionInfo) (labels : List String)
    (hm : ri.dangerRatings.map (·.mainValue) = labels.map PyVal.pstr)
    (hne : labels ≠ [])
    (hall : ∀ s ∈ labels, (rank_of s).isSome) :
    highest_warning ri =
      .ok (.pint (labels.foldl (fun acc s => max acc ((rank_of s).getD 0)) 0)) := by
  unfold highest_warning
  rw [hm]
  cases labels with
  | nil => exact absurd rfl hne
  | cons s0 rest =>
    obtain ⟨r0, hr0⟩ := Option.isSome_iff_exists.mp (hall s0 (by simp))
    have hw0 := warning_numbers_get_of_rank hr0
    have hpos := rank_of_pos hr0
    have hstep : hw_step none (.pstr s0) = .ok (some (.pint r0)) := by
      unfold hw_step
      simp only [hw0, pyGT]
      simp only [decide_eq_true hpos, if_true]
    simp only [List.map_cons, hw_go, hstep]
    rw [hw_go_pint rest r0 (fun t ht => hall t (by simp [ht]))]
    simp [List.foldl_cons, hr0, max_eq_right hpos.le]

/-- Witness for C3: the spec's own example
`highestLevel([low, high, moderate]) == 4`. -/
theorem C3_witness :
    highest_warning
      ⟨[⟨.pstr "low", none⟩, ⟨.pstr "high", none⟩, ⟨.pstr "moderate", none⟩], []⟩
      = .ok (.pint 4) :=
  C3_highest_warning_max
    ⟨[⟨.pstr "low", none⟩, ⟨.pstr "high", none⟩, ⟨.pstr "moderate", none⟩], []⟩
    ["low", "high", "moderate"] rfl (by decide) (by decide)

/-- `add_record` leaves the key list unchanged on a seen key and appends
the new key at the end otherwise. -/
theorem keys_add_record (gs : List ProblemGroup) (ap : AvalancheProblem) :
    (add_record gs ap).map (·.key) =
      (if group_key ap ∈ gs.map (·.key) then gs.map (·.key)
       else gs.map (·.key) ++ [group_key ap]) := by
  unfold add_record
  by_cases h : gs.any (fun g => g.key = group_key ap)
  · have hmem : group_key ap ∈ gs.map (·.key) := by
      simp only [List.any_eq_true, decide_eq_true_eq] at h
      obtain ⟨g, hg, he⟩ := h
      exact List.mem_map.mpr ⟨g, hg, he⟩
    rw [if_pos hmem]
    simp only [h, if_true, List.map_map]
    apply List.map_congr_left
    intro g _
    by_cases hk : g.key = group_key ap <;> simp [hk]
  · have hmem : group_key ap ∉ gs.map (·.key) := by
      simp only [List.any_eq_true, decide_eq_true_eq] at h
      intro hc
      obtain ⟨g, hg, he⟩ := List.mem_map.mp hc
      exact h ⟨g, hg, he⟩
    rw [if_neg hmem]
    simp [h]

/-- The grouping loop's key order, for an arbitrary starting accumulator. -/
theorem keys_build_groups_go (aps : List AvalancheProblem) :
    ∀ gs : List ProblemGroup,
    ((aps.foldl add_record gs).map (·.key)) =
      (aps.map group_key).foldl
        (fun acc k => if k ∈ acc then acc else acc ++ [k]) (gs.map (·.key)) := by
  induction aps with
  | nil => intro gs; rfl
  | cons ap rest ih =>
    intro gs
    simp only [List.foldl_cons, List.map_cons]
    rw [ih (add_record gs ap), keys_add_record]

/-- The classification fold is a stable two-bucket partition: appended to
arbitrary accumulators it produces the two filters of the input. -/
theorem split_groups_go (l : List ProblemGroup) :
    ∀ n o : List ProblemGroup,
    l.foldl
        (fun acc g =>
          if is_pure_other g.problem_entries then (acc.1, acc.2 ++ [g])
          else (acc.1 ++ [g], acc.2)) (n, o) =
      (n ++ l.filter (fun g => !(is_pure_other g.problem_entries)),
       o ++ l.filter (fun g => is_pure_other g.problem_entries)) := by
  induction l with
  | nil => intro n o; simp
  | cons g rest ih =>
    intro n o
    by_cases h : is_pure_other g.problem_entries <;>
      · simp only [List.foldl_cons, h, if_true, if_false, Bool.not_true,
          Bool.not_false]
        rw [ih]
        simp [List.filter_cons, h]

/-- C5: a finished group is classified "other" iff every of its
`(problemType, label)` entries carries the sentinel problem type; the
rendered order is the ordinary groups followed by the pure-other groups,
each bucket keeping the grouping order (a stable two-bucket partition,
i.e. the two filters of the group list); and the group list itself is in
first-seen key order. -/
theorem C5_stable_partition (aps : List AvalancheProblem) :
    rendered_groups aps =
      (build_groups aps).filter (fun g => !(is_pure_other g.problem_entries)) ++
        (build_groups aps).filter (fun g => is_pure_other g.problem_entries) ∧
    (build_groups aps).map (·.key) = first_seen_keys (aps.map group_key) ∧
    ∀ entries : List (PyVal × PyVal),
      is_pure_other entries = true ↔
        ∀ p ∈ entries, p.1 = PyVal.pstr "no_distinct_avalanche_problem" := by
  refine ⟨?_, ?_, ?_⟩
  · unfold rendered_groups split_groups
    rw [split_groups_go]
    simp
  · unfold build_groups first_seen_keys
    rw [keys_build_groups_go]
    rfl
  · intro entries
    simp [is_pure_other, List.all_eq_true]

/-- Witness for C5: on `demo_aps` the rendered order is the (merged)
wind-slab group first, the pure-other group second. -/
theorem C5_witness :
    rendered_groups demo_aps =
      [⟨(("range", some 2200, none), ["N", "NE"], "c1"),
        ⟨some ⟨some (some 2200), none, 0⟩, some ["N", "NE"], some "c1", .pstr "wind_slab"⟩,
        [(.pstr "wind_slab", .pstr "Neige soufflée"),
         (.pstr "wind_slab", .pstr "Neige soufflée")]⟩,
       ⟨(("all", none, none), ["all"], ""),
        ⟨none, none, none, .pstr "no_distinct_avalanche_problem"⟩,
        [(.pstr "no_distinct_avalanche_problem",
          .pstr "no_distinct_avalanche_problem")]⟩] :=
  ((C5_stable_partition demo_aps).1).trans (by decide)

/-- `strLeB` is total. -/
theorem strLeB_total : ∀ a b : List Char, strLeB a b = true ∨ strLeB b a = true := by
  intro a
  induction a with
  | nil => intro b; left; rfl
  | cons x xs ih =>
    intro b
    cases b with
    | nil => right; rfl
    | cons y ys =>
      by_cases h1 : x.toNat < y.toNat
      · left; simp [strLeB, h1]
      · by_cases h2 : y.toNat < x.toNat
        · right; simp [strLeB, h2]
        · rcases ih ys with h | h
          · left; simp [strLeB, h1, h2, h]
          · right; simp [strLeB, h1, h2, h]

/-- `strLeB` is transitive. -/
theorem strLeB_trans :
    ∀ a b c : List Char, strLeB a b = true → strLeB b c = true → strLeB a c = true := by
  intro a
  induction a with
  | nil => intros; rfl
  | cons x xs ih =>
    intro b c hab hbc
    cases b with
    | nil => simp [strLeB] at hab
    | cons y ys =>
      cases c with
      | nil => simp [strLeB] at hbc
      | cons z zs =>
        simp only [strLeB] at hab hbc ⊢
        by_cases hxy : x.toNat < y.toNat
        · by_cases hyz : y.toNat < z.toNat
          · simp [show x.toNat < z.toNat by omega]
          · by_cases hzy : z.toNat < y.toNat
            · rw [if_neg hyz, if_pos hzy] at hbc; cases hbc
            · simp [show x.toNat < z.toNat by omega]
        · by_cases hyx : y.toNat < x.toNat
          · rw [if_neg hxy, if_pos hyx] at hab; cases hab
          · rw [if_neg hxy, if_neg hyx] at hab
            by_cases hyz : y.toNat < z.toNat
            · simp [show x.toNat < z.toNat by omega]
            · by_cases hzy : z.toNat < y.toNat
              · rw [if_neg hyz, if_pos hzy] at hbc; cases hbc
              · rw [if_neg hyz, if_neg hzy] at hbc
                rw [if_neg (show ¬ x.toNat < z.toNat by omega),
                  if_neg (show ¬ z.toNat < x.toNat by omega)]
                exact ih ys zs hab hbc

/-- Characters with equal code points are equal. -/
theorem chr_eq_of_toNat_eq {a b : Char} (h : a.toNat = b.toNat) : a = b :=
  Char.ext (UInt32.ext h)

/-- `strLeB` is antisymmetric. -/
theorem strLeB_antisymm :
    ∀ a b : List Char, strLeB a b = true → strLeB b a = true → a = b := by
  intro a
  induction a with
  | nil =>
    intro b _ hba
    cases b with
    | nil => rfl
    | cons y ys => simp [strLeB] at hba
  | cons x xs ih =>
    intro b hab hba
    cases b with
    | nil => simp [strLeB] at hab
    | cons y ys =>
      simp only [strLeB] at hab hba
      by_cases hxy : x.toNat < y.toNat
      · rw [if_neg (show ¬ y.toNat < x.toNat by omega), if_pos hxy] at hba
        cases hba
      · by_cases hyx : y.toNat < x.toNat
        · rw [if_neg hxy, if_pos hyx] at hab; cases hab
        · rw [if_neg hxy, if_neg hyx] at hab
          rw [if_neg hyx, if_neg hxy] at hba
          rw [chr_eq_of_toNat_eq (show x.toNat = y.toNat by omega), ih ys hab hba]

instance : IsTotal String pyLeP :=
  ⟨fun a b => strLeB_total a.data b.data⟩

instance : IsTrans String pyLeP :=
  ⟨fun a b c => strLeB_trans a.data b.data c.data⟩

/-- Strings with equal character lists are equal. -/
theorem str_data_eq {a b : String} (h : a.data = b.data) : a = b := by
  cases a; cases b; exact congrArg String.mk h

instance : IsAntisymm String pyLeP :=
  ⟨fun a b h1 h2 => str_data_eq (strLeB_antisymm a.data b.data h1 h2)⟩

/-- Sorting is invariant under permutation of the (uppercased) input:
sorted permutations of one multiset coincide. -/
theorem sortedUpper_perm_eq {l1 l2 : List String}
    (h : (l1.map strUpper).Perm (l2.map strUpper)) :
    sortedUpper l1 = sortedUpper l2 :=
  List.eq_of_perm_of_sorted
    ((List.perm_insertionSort pyLeP _).trans
      (h.trans (List.perm_insertionSort pyLeP _).symm))
    (List.sorted_insertionSort pyLeP _)
    (List.sorted_insertionSort pyLeP _)

/-- `hexChar` always yields a hex digit. -/
theorem hexChar_isHexDigit (n : Nat) : isHexDigitCh (MD5.hexChar n) = true := by
  unfold MD5.hexChar
  split <;> decide

/-- `leBytes k` always yields `k` bytes. -/
theorem leBytes_length (k : Nat) : ∀ n, (MD5.leBytes k n).length = k := by
  induction k with
  | zero => intro n; rfl
  | succ k ih => intro n; simp [MD5.leBytes, ih]

/-- The MD5 digest always has 16 bytes. -/
theorem digestBytes_length (m : List Nat) : (MD5.digestBytes m).length = 16 := by
  unfold MD5.digestBytes
  simp [leBytes_length]

/-- Hex-encoding yields two characters per byte. -/
theorem flatMap_byteHex_length (bs : List Nat) :
    (bs.flatMap MD5.byteHex).length = 2 * bs.length := by
  induction bs with
  | nil => rfl
  | cons b rest ih => simp [MD5.byteHex, ih]; omega

/-- The truncated digest has exactly 10 characters. -/
theorem hexdigest10_length (s : String) : (hexdigest10 s).length = 10 := by
  show (((MD5.digestBytes (s.data.map Char.toNat)).flatMap MD5.byteHex).take 10).length = 10
  rw [List.length_take, flatMap_byteHex_length, digestBytes_length]
  decide

/-- Every character of the truncated digest is a hex digit. -/
theorem hexdigest10_hex (s : String) :
    (hexdigest10 s).data.all isHexDigitCh = true := by
  rw [List.all_eq_true]
  intro c hc
  have hc' : c ∈ (MD5.digestBytes (s.data.map Char.toNat)).flatMap MD5.byteHex :=
    List.mem_of_mem_take hc
  obtain ⟨b, _, hb⟩ := List.mem_flatMap.mp hc'
  simp only [MD5.byteHex, List.mem_cons, List.mem_singleton] at hb
  rcases hb with rfl | rfl | h
  · exact hexChar_isHexDigit _
  · exact hexChar_isHexDigit _
  · cases h

/-- C9: the compass-icon filename is invariant under permutation and letter
case of the direction list (it hashes the sorted uppercased list); the
singleton {N} gets a different name than {N,E}; and every filename has the
form `compass_fr_<10 hex chars>.svg`. -/
theorem C9_filename_stable :
    (∀ l1 l2 : List String, (l1.map strUpper).Perm (l2.map strUpper) →
        filename_for_expos l1 = filename_for_expos l2) ∧
    filename_for_expos ["N"] ≠ filename_for_expos ["N", "E"] ∧
    ∀ expos : List String, ∃ h : String,
      filename_for_expos expos = "compass_fr_" ++ h ++ ".svg" ∧
      h.length = 10 ∧ h.data.all isHexDigitCh = true := by
  refine ⟨?_, by decide, ?_⟩
  · intro l1 l2 h
    unfold filename_for_expos
    rw [sortedUpper_perm_eq h]
  · intro expos
    exact ⟨hexdigest10 (String.intercalate "," (sortedUpper expos)), rfl,
      hexdigest10_length _, hexdigest10_hex _⟩

/-- Witness for C9: the spec's example `filenameFor({"N","E"}) ==
filenameFor({"E","N"})`, and the same under a lower-case spelling. -/
theorem C9_witness :
    filename_for_expos ["N", "E"] = filename_for_expos ["E", "N"] ∧
    filename_for_expos ["N", "E"] = filename_for_expos ["e", "n"] :=
  ⟨C9_filename_stable.1 ["N", "E"] ["E", "N"] (by decide),
   C9_filename_stable.1 ["N", "E"] ["e", "n"] (by decide)⟩
